import Mathlib

/-!
Shallow embedding of the sandbox executor (src/python_code_executor/executor.py)
and proofs about its specification.

Modelling conventions:
- `ExecutionResult` and its `to_string` rendering are translated directly from
  the `ExecutionResult` dataclass.  Python truthiness of an optional string
  (`if self.error_message:`) is `optTruthy`: `None` and the empty string are
  falsy.  Python `str.strip()` is modelled by `str_strip`, which drops
  whitespace from both ends.
- The executor's effectful operations are translated as pure functions over an
  explicit executor state (`ExecState`, the fields of `SandboxExecutor`) and an
  explicit environment "world" describing what the filesystem and spawned
  subprocesses do on this particular call: whether the venv directory exists,
  whether `venv.create` raises, whether the interpreter binary exists, whether
  the temporary script file can be created and written, and the outcome of the
  single `subprocess.run` invocation (completion with captured streams and exit
  code, `subprocess.TimeoutExpired`, or another exception).
- Each operation returns its `ExecutionResult` together with a trace recording
  observables the claims talk about: the timeout value passed to
  `subprocess.run`, whether a subprocess was spawned, whether the temp-file
  cleanup in the `finally` block was attempted, whether a created temp file
  remains on disk afterwards, and the post-call executor state.
- Python exceptions never escape the translated functions, mirroring the broad
  `except Exception` handlers in the source: every function is total and
  returns an `ExecutionResult`.
-/

/-- Result of a code execution (the `ExecutionResult` dataclass). -/
structure ExecutionResult where
  success : Bool
  stdout : String
  stderr : String
  return_code : Int
  error_message : Option String := none
deriving Repr, DecidableEq

/-- Python truthiness of an `Optional[str]`: `None` and `""` are falsy. -/
def optTruthy : Option String → Bool
  | none => false
  | some s => s != ""

/-- Model of Python `str.strip()`: drop whitespace from both ends. -/
def str_strip (s : String) : String :=
  ⟨((s.data.dropWhile Char.isWhitespace).reverse.dropWhile Char.isWhitespace).reverse⟩

/-- Model of `"\n".join(parts)`. -/
def joinLines : List String → String
  | [] => ""
  | [x] => x
  | x :: xs => x ++ "\n" ++ joinLines xs

/-- `ExecutionResult.to_string`: render the result as a human-readable string. -/
def ExecutionResult.to_string (r : ExecutionResult) : String :=
  if optTruthy r.error_message then
    "Error: " ++ r.error_message.getD ""
  else
    let output_parts : List String :=
      (if str_strip r.stdout != "" then [r.stdout] else []) ++
      (if str_strip r.stderr != "" then ["[STDERR]:\n" ++ r.stderr] else [])
    if output_parts = [] then
      "Code executed successfully (no output)."
    else
      joinLines output_parts

/-- `SandboxExecutor.DEFAULT_TIMEOUT` (seconds). -/
def DEFAULT_TIMEOUT : Int := 60

/-- The mutable fields of a `SandboxExecutor` instance: the venv directory,
the default timeout, and the cached `_initialized` flag. -/
structure ExecState where
  venv_dir : String
  timeout : Int
  initialized : Bool
deriving Repr, DecidableEq

/-- `SandboxExecutor.__init__`: default venv dir is a fixed hidden directory
under the home directory; `_initialized` starts false. -/
def SandboxExecutor.init (home : String) (venv_dir : Option String)
    (timeout : Int) : ExecState :=
  { venv_dir := venv_dir.getD (home ++ "/.python_executor_sandbox"),
    timeout := timeout,
    initialized := false }

/-- `SandboxExecutor.python_path`: derived interpreter path (platform branch
on `sys.platform == "win32"`). -/
def python_path (win32 : Bool) (s : ExecState) : String :=
  if win32 then s.venv_dir ++ "\\Scripts\\python.exe"
  else s.venv_dir ++ "/bin/python"

/-- `SandboxExecutor.pip_path`: derived pip path. -/
def pip_path (win32 : Bool) (s : ExecState) : String :=
  if win32 then s.venv_dir ++ "\\Scripts\\pip.exe"
  else s.venv_dir ++ "/bin/pip"

/-- Environment facts consulted by one `ensure_initialized` call:
whether `self.venv_dir.exists()`, whether `venv.create` raises (`some msg`)
or succeeds (`none`), and whether `self.python_path.exists()` afterwards. -/
structure InitWorld where
  venvExists : Bool
  createExc : Option String
  pythonExistsAfter : Bool
deriving Repr, DecidableEq

/-- Outcome of one `ensure_initialized` call: the returned boolean, whether
`venv.create` was invoked, and the post-call executor state. -/
structure InitStep where
  ok : Bool
  createAttempted : Bool
  state : ExecState
deriving Repr, DecidableEq

/-- `SandboxExecutor.ensure_initialized`: fast path when `_initialized` is
cached and the directory exists; otherwise create the venv when the directory
is missing (returning false if `venv.create` raises), then verify the
interpreter executable, and only then set the cached flag. -/
def ensure_initialized (s : ExecState) (w : InitWorld) : InitStep :=
  if s.initialized && w.venvExists then
    { ok := true, createAttempted := false, state := s }
  else if !w.venvExists && w.createExc.isSome then
    { ok := false, createAttempted := true, state := s }
  else if !w.pythonExistsAfter then
    { ok := false, createAttempted := !w.venvExists, state := s }
  else
    { ok := true, createAttempted := !w.venvExists,
      state := { s with initialized := true } }

/-- Outcome of the single `subprocess.run` invocation of an operation:
normal completion with captured streams and exit code, a
`subprocess.TimeoutExpired` exception (carrying its `str(e)` text), or some
other exception. -/
inductive ProcOutcome where
  | completed (stdout stderr : String) (returncode : Int)
  | timedOut (excMsg : String)
  | exc (msg : String)
deriving Repr, DecidableEq

/-- Whether the subprocess ran to completion. -/
def ProcOutcome.isCompleted : ProcOutcome → Bool
  | .completed _ _ _ => true
  | _ => false

/-- Outcome of materialising the code into the `NamedTemporaryFile`:
`ok` (file created and written, `temp_file` assigned);
`createExc` (`tempfile.NamedTemporaryFile` itself raised: no file on disk,
`temp_file` still `None`); `writeExc` (the file was created on disk but
`f.write(code)` raised, so `temp_file` was never assigned). -/
inductive TempOutcome where
  | ok
  | createExc (msg : String)
  | writeExc (msg : String)
deriving Repr, DecidableEq

/-- Whether the temporary script file was created and written successfully. -/
def TempOutcome.isOk : TempOutcome → Bool
  | .ok => true
  | _ => false

/-- Environment facts consulted by one `execute_code` call. `unlinkExc` is
whether `temp_file.unlink()` in the `finally` block raises. -/
structure ExecWorld where
  init : InitWorld
  temp : TempOutcome
  proc : ProcOutcome
  unlinkExc : Option String
deriving Repr, DecidableEq

/-- Observables of one `execute_code` call: the timeout passed to
`subprocess.run` (`none` when no subprocess was invoked), whether the
`finally`-block cleanup reached the `unlink` call, whether a created temp
file remains on disk after the call, and the post-call state. -/
structure ExecTrace where
  usedTimeout : Option Int
  cleanupAttempted : Bool
  fileRemains : Bool
  state : ExecState
deriving Repr, DecidableEq

/-- The failure result returned when `ensure_initialized` reports false. -/
def initFailureResult : ExecutionResult :=
  { success := false, stdout := "", stderr := "", return_code := -1,
    error_message := some "Failed to initialize sandbox environment" }

/-- The result built by the generic `except Exception` handlers. -/
def systemErrorResult (msg : String) : ExecutionResult :=
  { success := false, stdout := "", stderr := "", return_code := -1,
    error_message := some ("System error: " ++ msg) }

/-- `timeout = timeout or self.timeout`: Python truthiness on ints, so both
`None` and `0` fall back to the executor's default timeout. -/
def effectiveTimeout (timeoutArg : Option Int) (default : Int) : Int :=
  match timeoutArg with
  | none => default
  | some v => if v = 0 then default else v

/-- `SandboxExecutor.execute_code`: ensure readiness (failure short-circuits
with `initFailureResult`); resolve the effective timeout; write the code to a
temporary file; run the sandbox interpreter on it under the timeout; map
completion to a result keyed on the exit code, `TimeoutExpired` to the
dedicated timed-out message (interpolating the effective timeout), and any
other exception to `systemErrorResult`. The `finally` block unlinks the temp
file only when the `temp_file` variable was assigned, i.e. only when the write
succeeded; an `unlink` failure is swallowed and leaves the file behind. -/
def execute_code (s : ExecState) (w : ExecWorld) (code : String)
    (timeoutArg : Option Int) : ExecutionResult × ExecTrace :=
  let istep := ensure_initialized s w.init
  if !istep.ok then
    (initFailureResult,
     { usedTimeout := none, cleanupAttempted := false, fileRemains := false,
       state := istep.state })
  else
    let t := effectiveTimeout timeoutArg s.timeout
    match w.temp with
    | .createExc m =>
        (systemErrorResult m,
         { usedTimeout := none, cleanupAttempted := false, fileRemains := false,
           state := istep.state })
    | .writeExc m =>
        (systemErrorResult m,
         { usedTimeout := none, cleanupAttempted := false, fileRemains := true,
           state := istep.state })
    | .ok =>
        let r : ExecutionResult :=
          match w.proc with
          | .completed out err rc =>
              { success := rc == 0, stdout := out, stderr := err,
                return_code := rc, error_message := none }
          | .timedOut _ =>
              { success := false, stdout := "", stderr := "", return_code := -1,
                error_message := some ("Execution timed out after " ++
                  toString t ++ " seconds") }
          | .exc m => systemErrorResult m
        (r, { usedTimeout := some t, cleanupAttempted := true,
              fileRemains := w.unlinkExc.isSome, state := istep.state })

/-- Environment facts consulted by one `install_packages` or `list_packages`
call: the `ensure_initialized` world and the pip subprocess outcome. -/
structure PipWorld where
  init : InitWorld
  proc : ProcOutcome
deriving Repr, DecidableEq

/-- Observables of one pip-based call: whether a subprocess was spawned, the
timeout passed to `subprocess.run`, and the post-call state. -/
structure PipTrace where
  spawned : Bool
  usedTimeout : Option Int
  state : ExecState
deriving Repr, DecidableEq

/-- `SandboxExecutor.install_packages`: ensure readiness; reject an empty
package list before spawning anything; otherwise run pip install on the whole
list under a fixed 300-second timeout, with a dedicated message for
`TimeoutExpired` and the generic handler for other exceptions. -/
def install_packages (s : ExecState) (w : PipWorld) (packages : List String) :
    ExecutionResult × PipTrace :=
  let istep := ensure_initialized s w.init
  if !istep.ok then
    (initFailureResult, { spawned := false, usedTimeout := none, state := istep.state })
  else if packages = [] then
    ({ success := false, stdout := "", stderr := "", return_code := -1,
       error_message := some "No packages specified" },
     { spawned := false, usedTimeout := none, state := istep.state })
  else
    match w.proc with
    | .completed out err rc =>
        ({ success := rc == 0, stdout := out, stderr := err,
           return_code := rc, error_message := none },
         { spawned := true, usedTimeout := some 300, state := istep.state })
    | .timedOut _ =>
        ({ success := false, stdout := "", stderr := "", return_code := -1,
           error_message := some "Package installation timed out after 5 minutes" },
         { spawned := true, usedTimeout := some 300, state := istep.state })
    | .exc m =>
        (systemErrorResult m,
         { spawned := true, usedTimeout := some 300, state := istep.state })

/-- `SandboxExecutor.list_packages`: ensure readiness; run pip list under a
30-second timeout. The source has no dedicated `except subprocess.TimeoutExpired`
clause here, and `TimeoutExpired` is a subclass of `Exception`, so a timeout is
caught by the generic `except Exception` branch and reported as
`"System error: " + str(e)`. -/
def list_packages (s : ExecState) (w : PipWorld) :
    ExecutionResult × PipTrace :=
  let istep := ensure_initialized s w.init
  if !istep.ok then
    (initFailureResult, { spawned := false, usedTimeout := none, state := istep.state })
  else
    match w.proc with
    | .completed out err rc =>
        ({ success := rc == 0, stdout := out, stderr := err,
           return_code := rc, error_message := none },
         { spawned := true, usedTimeout := some 30, state := istep.state })
    | .timedOut m =>
        (systemErrorResult m,
         { spawned := true, usedTimeout := some 30, state := istep.state })
    | .exc m =>
        (systemErrorResult m,
         { spawned := true, usedTimeout := some 30, state := istep.state })

/-- Environment facts consulted by one `reset_environment` call: whether the
venv directory exists at entry, whether `shutil.rmtree` raises, and the world
seen by the re-run of `ensure_initialized`. -/
structure ResetWorld where
  venvExists : Bool
  rmtreeExc : Option String
  init : InitWorld
deriving Repr, DecidableEq

/-- `SandboxExecutor.reset_environment`: inside a try block, recursively
delete the venv directory when it exists (an exception here is caught by the
outer handler), clear `_initialized`, and re-run `ensure_initialized`;
report the fixed confirmation message on success, a recreation-failure
message when `ensure_initialized` returns false, and a caught-exception
message when deletion raised. -/
def reset_environment (s : ExecState) (w : ResetWorld) :
    ExecutionResult × ExecState :=
  if w.venvExists && w.rmtreeExc.isSome then
    ({ success := false, stdout := "", stderr := "", return_code := -1,
       error_message := some ("Failed to reset environment: " ++
         w.rmtreeExc.getD "") }, s)
  else
    let istep := ensure_initialized { s with initialized := false } w.init
    if istep.ok then
      ({ success := true,
         stdout := "Sandbox environment has been reset successfully.",
         stderr := "", return_code := 0, error_message := none }, istep.state)
    else
      ({ success := false, stdout := "", stderr := "", return_code := -1,
         error_message := some "Failed to recreate sandbox environment" },
       istep.state)

/-- A non-empty string prefixed to anything is non-empty. -/
theorem append_ne_empty_left (p m : String) (hp : p ≠ "") : p ++ m ≠ "" := by
  intro h
  apply hp
  have hd : p.data ++ m.data = [] := by
    have := congrArg String.data h
    simpa [String.data_append] using this
  cases p with
  | mk d =>
      cases List.append_eq_nil.mp hd with
      | intro h1 h2 =>
          have hde : d = [] := h1
          subst hde
          rfl

/-- A result produced by a fault branch: failure flagged and a non-empty
error message attached. -/
def resultAbsorbed (r : ExecutionResult) : Prop :=
  r.success = false ∧ ∃ m, r.error_message = some m ∧ m ≠ ""

/-- Claim C4 counterexample: an `ExecutionResult` whose `error_message` is set
to the empty string is not rendered as an error line at all — Python
truthiness sends it to the output branch, which renders the fixed
no-output sentence. -/
theorem to_string_error_set_counterexample :
    ((ExecutionResult.mk true "" "" 0 (some "")).error_message.isSome = true) ∧
    ExecutionResult.to_string (ExecutionResult.mk true "" "" 0 (some "")) =
      "Code executed successfully (no output)." ∧
    ExecutionResult.to_string (ExecutionResult.mk true "" "" 0 (some "")) ≠
      "Error: " ++ (ExecutionResult.mk true "" "" 0 (some "")).error_message.getD "" := by
  refine ⟨rfl, by decide, by decide⟩

/-- Claim C4 (amended): for every `ExecutionResult`, if `error_message` is set
to a non-empty string the rendering is exactly the error line; if it is unset
or the empty string, the rendering is the stdout text (when non-blank)
followed by the labeled stderr block (when non-blank), stdout first, and the
fixed no-output sentence when both streams are blank. -/
theorem to_string_rendering (r : ExecutionResult) :
    (∀ m : String, r.error_message = some m → m ≠ "" →
       r.to_string = "Error: " ++ m) ∧
    (r.error_message = none ∨ r.error_message = some "" →
      ((str_strip r.stdout ≠ "" → str_strip r.stderr ≠ "" →
          r.to_string = r.stdout ++ "\n" ++ ("[STDERR]:\n" ++ r.stderr)) ∧
       (str_strip r.stdout ≠ "" → str_strip r.stderr = "" →
          r.to_string = r.stdout) ∧
       (str_strip r.stdout = "" → str_strip r.stderr ≠ "" →
          r.to_string = "[STDERR]:\n" ++ r.stderr) ∧
       (str_strip r.stdout = "" → str_strip r.stderr = "" →
          r.to_string = "Code executed successfully (no output)."))) := by
  constructor
  · intro m hm hne
    simp [ExecutionResult.to_string, hm, optTruthy, hne]
  · intro h
    have ht : optTruthy r.error_message = false := by
      rcases h with h | h <;> simp [h, optTruthy]
    refine ⟨?_, ?_, ?_, ?_⟩ <;> intro h1 h2 <;>
      simp [ExecutionResult.to_string, ht, h1, h2, joinLines]

/-- Witness for the amended C4 rendering rule at concrete results. -/
theorem to_string_rendering_witness :
    (ExecutionResult.mk false "" "" 1 (some "boom")).to_string =
      "Error: " ++ "boom" ∧
    (ExecutionResult.mk true "x" "y" 0 none).to_string =
      "x" ++ "\n" ++ ("[STDERR]:\n" ++ "y") :=
  ⟨(to_string_rendering _).1 "boom" rfl (by decide),
   ((to_string_rendering _).2 (Or.inl rfl)).1 (by decide) (by decide)⟩

/-- A successful `ensure_initialized` call leaves the cached flag set. -/
theorem ensure_initialized_ok_state (s : ExecState) (w : InitWorld)
    (h : (ensure_initialized s w).ok = true) :
    (ensure_initialized s w).state.initialized = true := by
  cases hs : s.initialized <;> cases hv : w.venvExists <;>
    cases hc : w.createExc.isSome <;> cases hp : w.pythonExistsAfter <;>
    simp_all [ensure_initialized]

/-- Claim C5: when a first `ensure_initialized` call succeeds and the venv
directory still exists, an immediately following call takes the fast path:
it returns true, performs no creation work, and leaves the state unchanged. -/
theorem ensure_initialized_idempotent (s : ExecState) (w1 w2 : InitWorld)
    (h1 : (ensure_initialized s w1).ok = true)
    (h2 : w2.venvExists = true) :
    ensure_initialized (ensure_initialized s w1).state w2 =
      { ok := true, createAttempted := false,
        state := (ensure_initialized s w1).state } := by
  have hi := ensure_initialized_ok_state s w1 h1
  generalize (ensure_initialized s w1).state = st at hi ⊢
  simp [ensure_initialized, hi, h2]

/-- Witness for C5 at a concrete fresh state and worlds. -/
theorem ensure_initialized_idempotent_witness :
    ensure_initialized
      (ensure_initialized ⟨"/sb", 60, false⟩ ⟨false, none, true⟩).state
      ⟨true, none, true⟩ =
      { ok := true, createAttempted := false,
        state := (ensure_initialized ⟨"/sb", 60, false⟩ ⟨false, none, true⟩).state } :=
  ensure_initialized_idempotent ⟨"/sb", 60, false⟩ ⟨false, none, true⟩
    ⟨true, none, true⟩ (by decide) rfl

/-- Fault condition for one `execute_code` call: initialization failed, the
temp file could not be materialised, or the subprocess did not complete. -/
def execFault (s : ExecState) (w : ExecWorld) : Bool :=
  !(ensure_initialized s w.init).ok || !w.temp.isOk || !w.proc.isCompleted

/-- Fault condition for one `install_packages` call: initialization failed,
the request was empty, or the pip subprocess did not complete. -/
def installFault (s : ExecState) (w : PipWorld) (packages : List String) : Bool :=
  !(ensure_initialized s w.init).ok || packages.isEmpty || !w.proc.isCompleted

/-- Fault condition for one `list_packages` call. -/
def listFault (s : ExecState) (w : PipWorld) : Bool :=
  !(ensure_initialized s w.init).ok || !w.proc.isCompleted

/-- Fault condition for one `reset_environment` call: deletion raised or the
recreation reported failure. -/
def resetFault (s : ExecState) (w : ResetWorld) : Bool :=
  (w.venvExists && w.rmtreeExc.isSome) ||
    !(ensure_initialized { s with initialized := false } w.init).ok

/-- Claim C1: every public operation is a total function into
`ExecutionResult` (no exception escapes, by construction of the embedding),
and whenever the environment exhibits a fault — initialization failure,
timeout, request-validation failure, or any other exception — the returned
result has `success = false` and a non-empty `error_message`. -/
theorem public_operations_absorb_faults :
    (∀ s w code t, execFault s w = true →
       resultAbsorbed (execute_code s w code t).1) ∧
    (∀ s w packages, installFault s w packages = true →
       resultAbsorbed (install_packages s w packages).1) ∧
    (∀ s w, listFault s w = true →
       resultAbsorbed (list_packages s w).1) ∧
    (∀ s w, resetFault s w = true →
       resultAbsorbed (reset_environment s w).1) := by
  refine ⟨?_, ?_, ?_, ?_⟩
  · intro s w code t hf
    by_cases hok : (ensure_initialized s w.init).ok = true <;>
      cases htemp : w.temp <;> cases hproc : w.proc <;>
      simp_all [execute_code, execFault, TempOutcome.isOk, ProcOutcome.isCompleted,
                resultAbsorbed, initFailureResult, systemErrorResult] <;>
      first
        | decide
        | exact append_ne_empty_left _ _ (by decide)
        | exact append_ne_empty_left _ _ (append_ne_empty_left _ _ (by decide))
  · intro s w packages hf
    by_cases hok : (ensure_initialized s w.init).ok = true <;>
      cases hpk : packages <;> cases hproc : w.proc <;>
      simp_all [install_packages, installFault, ProcOutcome.isCompleted,
                resultAbsorbed, initFailureResult, systemErrorResult] <;>
      first
        | decide
        | exact append_ne_empty_left _ _ (by decide)
  · intro s w hf
    by_cases hok : (ensure_initialized s w.init).ok = true <;>
      cases hproc : w.proc <;>
      simp_all [list_packages, listFault, ProcOutcome.isCompleted,
                resultAbsorbed, initFailureResult, systemErrorResult] <;>
      first
        | decide
        | exact append_ne_empty_left _ _ (by decide)
  · intro s w hf
    cases hv : w.venvExists <;> cases hrm : w.rmtreeExc <;>
      by_cases hok : (ensure_initialized { s with initialized := false } w.init).ok = true <;>
      simp_all [reset_environment, resetFault, resultAbsorbed] <;>
      first
        | decide
        | exact append_ne_empty_left _ _ (by decide)

/-- Witness for C1: a concrete `execute_code` call whose initialization
fails is absorbed into a structured failure result. -/
theorem public_operations_absorb_faults_witness :
    resultAbsorbed (execute_code ⟨"/sb", 60, false⟩
      ⟨⟨false, some "disk full", false⟩, TempOutcome.ok,
        ProcOutcome.completed "" "" 0, none⟩ "print(1)" none).1 :=
  public_operations_absorb_faults.1 ⟨"/sb", 60, false⟩
    ⟨⟨false, some "disk full", false⟩, TempOutcome.ok,
      ProcOutcome.completed "" "" 0, none⟩ "print(1)" none (by decide)

/-- One `execute_code` call ran its subprocess to completion: readiness
passed, the temp file was materialised, and the process exited. -/
def execCompleted (s : ExecState) (w : ExecWorld) : Bool :=
  (ensure_initialized s w.init).ok && w.temp.isOk && w.proc.isCompleted

/-- One `install_packages` call ran pip to completion. -/
def installCompleted (s : ExecState) (w : PipWorld)
    (packages : List String) : Bool :=
  (ensure_initialized s w.init).ok && !packages.isEmpty && w.proc.isCompleted

/-- One `list_packages` call ran pip to completion. -/
def listCompleted (s : ExecState) (w : PipWorld) : Bool :=
  (ensure_initialized s w.init).ok && w.proc.isCompleted

/-- Claim C2: whenever the spawned process runs to completion the result is
`success = (return_code == 0)` with the captured streams and no error
message; and `error_message` is set exactly when the operation failed before
its subprocess produced stdout/stderr/return_code. -/
theorem error_message_iff_process_incomplete :
    (∀ s w code t out err rc, (ensure_initialized s w.init).ok = true →
       w.temp = TempOutcome.ok → w.proc = ProcOutcome.completed out err rc →
       (execute_code s w code t).1 =
         { success := rc == 0, stdout := out, stderr := err,
           return_code := rc, error_message := none }) ∧
    (∀ s w packages out err rc, (ensure_initialized s w.init).ok = true →
       packages ≠ [] → w.proc = ProcOutcome.completed out err rc →
       (install_packages s w packages).1 =
         { success := rc == 0, stdout := out, stderr := err,
           return_code := rc, error_message := none }) ∧
    (∀ s w code t,
       (execute_code s w code t).1.error_message.isSome = !execCompleted s w) ∧
    (∀ s w packages,
       (install_packages s w packages).1.error_message.isSome =
         !installCompleted s w packages) ∧
    (∀ s w,
       (list_packages s w).1.error_message.isSome = !listCompleted s w) := by
  refine ⟨?_, ?_, ?_, ?_, ?_⟩
  · intro s w code t out err rc hok htemp hproc
    simp [execute_code, hok, htemp, hproc]
  · intro s w packages out err rc hok hpk hproc
    simp [install_packages, hok, hpk, hproc]
  · intro s w code t
    by_cases hok : (ensure_initialized s w.init).ok = true <;>
      cases htemp : w.temp <;> cases hproc : w.proc <;>
      simp_all [execute_code, execCompleted, TempOutcome.isOk,
                ProcOutcome.isCompleted, initFailureResult, systemErrorResult]
  · intro s w packages
    by_cases hok : (ensure_initialized s w.init).ok = true <;>
      cases hpk : packages <;> cases hproc : w.proc <;>
      simp_all [install_packages, installCompleted, ProcOutcome.isCompleted,
                initFailureResult, systemErrorResult]
  · intro s w
    by_cases hok : (ensure_initialized s w.init).ok = true <;>
      cases hproc : w.proc <;>
      simp_all [list_packages, listCompleted, ProcOutcome.isCompleted,
                initFailureResult, systemErrorResult]

/-- Witness for C2: a concrete completed run with exit code 7 reports the
captured streams, `success = false`, and no error message. -/
theorem error_message_iff_process_incomplete_witness :
    (execute_code ⟨"/sb", 60, true⟩
       ⟨⟨true, none, true⟩, TempOutcome.ok,
         ProcOutcome.completed "out" "trace" 7, none⟩ "raise SystemExit(7)" none).1 =
      { success := (7 : Int) == 0, stdout := "out", stderr := "trace",
        return_code := 7, error_message := none } :=
  error_message_iff_process_incomplete.1 ⟨"/sb", 60, true⟩
    ⟨⟨true, none, true⟩, TempOutcome.ok,
      ProcOutcome.completed "out" "trace" 7, none⟩ "raise SystemExit(7)" none
    "out" "trace" 7 (by decide) rfl rfl

/-- Claim C3: when the spawned interpreter exceeds the effective deadline,
`execute_code` reports the timed-out failure with `return_code = -1`, empty
streams, and the message interpolating the effective timeout; the timeout
passed to the subprocess is that same effective value. -/
theorem execute_code_timeout_result (s : ExecState) (w : ExecWorld)
    (code : String) (timeoutArg : Option Int) (m : String)
    (hok : (ensure_initialized s w.init).ok = true)
    (htemp : w.temp = TempOutcome.ok)
    (hproc : w.proc = ProcOutcome.timedOut m) :
    (execute_code s w code timeoutArg).1 =
      { success := false, stdout := "", stderr := "", return_code := -1,
        error_message := some ("Execution timed out after " ++
          toString (effectiveTimeout timeoutArg s.timeout) ++ " seconds") } ∧
    (execute_code s w code timeoutArg).2.usedTimeout =
      some (effectiveTimeout timeoutArg s.timeout) := by
  constructor <;> simp [execute_code, hok, htemp, hproc]

/-- Witness for C3 at a concrete five-second deadline. -/
theorem execute_code_timeout_result_witness :
    (execute_code ⟨"/sb", 60, true⟩
       ⟨⟨true, none, true⟩, TempOutcome.ok,
         ProcOutcome.timedOut "command timed out", none⟩
       "while True: pass" (some 5)).1 =
      { success := false, stdout := "", stderr := "", return_code := -1,
        error_message := some ("Execution timed out after " ++
          toString (effectiveTimeout (some 5) 60) ++ " seconds") } :=
  (execute_code_timeout_result ⟨"/sb", 60, true⟩
    ⟨⟨true, none, true⟩, TempOutcome.ok,
      ProcOutcome.timedOut "command timed out", none⟩
    "while True: pass" (some 5) "command timed out" (by decide) rfl rfl).1

/-- Claim C6 counterexample: an empty install request on an executor whose
initialization fails is answered with the initialization-failure message,
not with "No packages specified". -/
theorem install_empty_rejected_counterexample :
    (install_packages ⟨"/sb", 60, false⟩
       ⟨⟨false, some "disk full", false⟩, ProcOutcome.completed "" "" 0⟩
       []).1.error_message = some "Failed to initialize sandbox environment" ∧
    (some "Failed to initialize sandbox environment" : Option String) ≠
      some "No packages specified" :=
  ⟨by decide, by decide⟩

/-- Claim C6 (amended): an empty install request never spawns a subprocess;
when the readiness check passes it is rejected with exactly
`"No packages specified"` (when readiness fails, the initialization-failure
message is returned instead, still without spawning). -/
theorem install_empty_rejected :
    (∀ s w, (ensure_initialized s w.init).ok = true →
       (install_packages s w []).1 =
         { success := false, stdout := "", stderr := "", return_code := -1,
           error_message := some "No packages specified" }) ∧
    (∀ s w, (install_packages s w []).2.spawned = false) := by
  constructor
  · intro s w hok
    simp [install_packages, hok]
  · intro s w
    by_cases hok : (ensure_initialized s w.init).ok = true <;>
      simp [install_packages, hok]

/-- Witness for the amended C6 on a ready executor. -/
theorem install_empty_rejected_witness :
    (install_packages ⟨"/sb", 60, true⟩
       ⟨⟨true, none, true⟩, ProcOutcome.completed "" "" 0⟩ []).1 =
      { success := false, stdout := "", stderr := "", return_code := -1,
        error_message := some "No packages specified" } :=
  install_empty_rejected.1 ⟨"/sb", 60, true⟩
    ⟨⟨true, none, true⟩, ProcOutcome.completed "" "" 0⟩ (by decide)

/-- Claim C7: `reset_environment` tolerates an absent directory, clears the
cached flag and re-runs `ensure_initialized` when deletion does not raise
(reporting the fixed confirmation on success and the recreation-failure
message otherwise), and converts a deletion exception into a caught failure
result. -/
theorem reset_environment_spec :
    (∀ s w, (w.venvExists = false ∨ w.rmtreeExc = none) →
       (ensure_initialized { s with initialized := false } w.init).ok = true →
       reset_environment s w =
         ({ success := true,
            stdout := "Sandbox environment has been reset successfully.",
            stderr := "", return_code := 0, error_message := none },
          (ensure_initialized { s with initialized := false } w.init).state)) ∧
    (∀ s w, (w.venvExists = false ∨ w.rmtreeExc = none) →
       (ensure_initialized { s with initialized := false } w.init).ok = false →
       reset_environment s w =
         ({ success := false, stdout := "", stderr := "", return_code := -1,
            error_message := some "Failed to recreate sandbox environment" },
          (ensure_initialized { s with initialized := false } w.init).state)) ∧
    (∀ s w m, w.venvExists = true → w.rmtreeExc = some m →
       reset_environment s w =
         ({ success := false, stdout := "", stderr := "", return_code := -1,
            error_message := some ("Failed to reset environment: " ++ m) },
          s)) := by
  refine ⟨?_, ?_, ?_⟩
  · intro s w hdel hok
    rcases hdel with h | h <;> simp [reset_environment, h, hok]
  · intro s w hdel hok
    rcases hdel with h | h <;> simp [reset_environment, h, hok]
  · intro s w m hv hrm
    simp [reset_environment, hv, hrm]

/-- Witness for C7: a concrete reset with the directory absent and a clean
recreation returns the confirmation result. -/
theorem reset_environment_spec_witness :
    reset_environment ⟨"/sb", 60, true⟩ ⟨false, none, ⟨false, none, true⟩⟩ =
      ({ success := true,
         stdout := "Sandbox environment has been reset successfully.",
         stderr := "", return_code := 0, error_message := none },
       (ensure_initialized ⟨"/sb", 60, false⟩ ⟨false, none, true⟩).state) :=
  reset_environment_spec.1 ⟨"/sb", 60, true⟩ ⟨false, none, ⟨false, none, true⟩⟩
    (Or.inl rfl) (by decide)

/-- Claim C8 evaluation: when `f.write(code)` raises after the temporary file
was created, `execute_code` reports a system error but never attempts the
cleanup, and the created file remains on disk — while on the normal paths
(completion, timeout, other fault after a successful write) the cleanup is
attempted, a successful unlink leaves nothing behind, and an unlink failure
does not change the reported result. -/
theorem execute_code_write_fault_leaves_artifact :
    ((execute_code ⟨"/sb", 60, true⟩
        ⟨⟨true, none, true⟩, TempOutcome.writeExc "No space left on device",
          ProcOutcome.completed "" "" 0, none⟩ "print(1)" none).2.fileRemains
        = true) ∧
    ((execute_code ⟨"/sb", 60, true⟩
        ⟨⟨true, none, true⟩, TempOutcome.writeExc "No space left on device",
          ProcOutcome.completed "" "" 0, none⟩ "print(1)" none).2.cleanupAttempted
        = false) ∧
    ((execute_code ⟨"/sb", 60, true⟩
        ⟨⟨true, none, true⟩, TempOutcome.writeExc "No space left on device",
          ProcOutcome.completed "" "" 0, none⟩ "print(1)" none).1
        = systemErrorResult "No space left on device") ∧
    ((execute_code ⟨"/sb", 60, true⟩
        ⟨⟨true, none, true⟩, TempOutcome.ok,
          ProcOutcome.completed "4\n" "" 0, none⟩ "print(2+2)" none).2.cleanupAttempted
        = true) ∧
    ((execute_code ⟨"/sb", 60, true⟩
        ⟨⟨true, none, true⟩, TempOutcome.ok,
          ProcOutcome.completed "4\n" "" 0, none⟩ "print(2+2)" none).2.fileRemains
        = false) ∧
    ((execute_code ⟨"/sb", 60, true⟩
        ⟨⟨true, none, true⟩, TempOutcome.ok,
          ProcOutcome.timedOut "t", none⟩ "print(2+2)" none).2.cleanupAttempted
        = true) ∧
    ((execute_code ⟨"/sb", 60, true⟩
        ⟨⟨true, none, true⟩, TempOutcome.ok,
          ProcOutcome.exc "boom", none⟩ "print(2+2)" none).2.cleanupAttempted
        = true) ∧
    ((execute_code ⟨"/sb", 60, true⟩
        ⟨⟨true, none, true⟩, TempOutcome.ok,
          ProcOutcome.completed "4\n" "" 0, some "busy"⟩ "print(2+2)" none).1
        = (execute_code ⟨"/sb", 60, true⟩
            ⟨⟨true, none, true⟩, TempOutcome.ok,
              ProcOutcome.completed "4\n" "" 0, none⟩ "print(2+2)" none).1) := by
  refine ⟨by decide, by decide, by decide, by decide, by decide, by decide,
          by decide, by decide⟩

/-- Claim C9: the per-call timeout is applied through Python truthiness, so
`None` and `0` both fall back to the configured default, any non-zero value
is used as given, and no zero-second deadline can result from a non-zero
default; consequently `execute_code` passes the default to the subprocess
when the argument is omitted or zero. -/
theorem execute_code_zero_timeout_fallback :
    (∀ d : Int, effectiveTimeout none d = d) ∧
    (∀ d : Int, effectiveTimeout (some 0) d = d) ∧
    (∀ v d : Int, v ≠ 0 → effectiveTimeout (some v) d = v) ∧
    (∀ (t : Option Int) (d : Int), d ≠ 0 → effectiveTimeout t d ≠ 0) ∧
    (∀ s w code, (ensure_initialized s w.init).ok = true →
       w.temp = TempOutcome.ok →
       (execute_code s w code none).2.usedTimeout = some s.timeout ∧
       (execute_code s w code (some 0)).2.usedTimeout = some s.timeout) := by
  refine ⟨fun d => rfl, fun d => by simp [effectiveTimeout], ?_, ?_, ?_⟩
  · intro v d hv
    simp [effectiveTimeout, hv]
  · intro t d hd
    cases t with
    | none => simpa [effectiveTimeout] using hd
    | some v => by_cases hv : v = 0 <;> simp [effectiveTimeout, hv, hd]
  · intro s w code hok htemp
    constructor <;> simp [execute_code, hok, htemp, effectiveTimeout]

/-- Witness for C9: omitted and zero per-call timeouts both resolve to the
configured 60-second default on a concrete ready executor. -/
theorem execute_code_zero_timeout_fallback_witness :
    (execute_code ⟨"/sb", 60, true⟩
       ⟨⟨true, none, true⟩, TempOutcome.ok,
         ProcOutcome.completed "" "" 0, none⟩ "print(1)" none).2.usedTimeout
      = some 60 ∧
    (execute_code ⟨"/sb", 60, true⟩
       ⟨⟨true, none, true⟩, TempOutcome.ok,
         ProcOutcome.completed "" "" 0, none⟩ "print(1)" (some 0)).2.usedTimeout
      = some 60 :=
  execute_code_zero_timeout_fallback.2.2.2.2 ⟨"/sb", 60, true⟩
    ⟨⟨true, none, true⟩, TempOutcome.ok,
      ProcOutcome.completed "" "" 0, none⟩ "print(1)" (by decide) rfl

/-- Claim C10: a spawned `list_packages` subprocess always runs under the
fixed 30-second timeout, and a `TimeoutExpired` there is caught by the
generic handler, yielding `success = false`, `return_code = -1`, empty
streams, and an error message beginning "System error: " — there is no
dedicated timed-out message for listing. -/
theorem list_packages_timeout_generic (s : ExecState) (w : PipWorld)
    (hok : (ensure_initialized s w.init).ok = true) :
    ((list_packages s w).2.spawned = true →
       (list_packages s w).2.usedTimeout = some 30) ∧
    (∀ m, w.proc = ProcOutcome.timedOut m →
       (list_packages s w).1 = systemErrorResult m ∧
       (list_packages s w).1.error_message = some ("System error: " ++ m)) := by
  constructor
  · intro hsp
    cases hproc : w.proc <;> simp [list_packages, hok, hproc]
  · intro m hproc
    constructor <;> simp [list_packages, hok, hproc, systemErrorResult]

/-- Witness for C10: a concrete listing timeout is reported through the
generic system-error branch. -/
theorem list_packages_timeout_generic_witness :
    (list_packages ⟨"/sb", 60, true⟩
       ⟨⟨true, none, true⟩,
         ProcOutcome.timedOut "Command timed out after 30 seconds"⟩).1 =
      systemErrorResult "Command timed out after 30 seconds" :=
  ((list_packages_timeout_generic ⟨"/sb", 60, true⟩
      ⟨⟨true, none, true⟩,
        ProcOutcome.timedOut "Command timed out after 30 seconds"⟩
      (by decide)).2 "Command timed out after 30 seconds" rfl).1
